import Mathlib

/-!
Shallow embedding of the Pokemon TCG portfolio ETL
(Labs/Lab_04/pokemon_lab/update_portfolio.py, plus the nested
Labs/Lab_04/pokemon_lab/pokemon_lab/update_portfolio.py variant where a
claim depends on it).  Market values are modelled as rationals, CSV and
JSON cells as Option String (none models a missing cell / NaN).
-/

/-- A raw catalog record as it stands for pd.json_normalize: the five
string fields of interest (none models an absent path or a JSON null,
both of which become a missing cell), and the two price paths, where
the outer Option records whether the record carries the path at all
(this determines column presence after flattening) and the inner
Option a JSON null. -/
structure RawCard where
  id : Option String
  name : Option String
  number : Option String
  set_id : Option String
  set_name : Option String
  holofoil_market : Option (Option ℚ)
  normal_market : Option (Option ℚ)
deriving DecidableEq

/-- The column tcgplayer.prices.holofoil.market exists in the flattened
frame of a document exactly when some record of the document carries the
path. -/
def holoColPresent (doc : List RawCard) : Bool :=
  doc.any (fun r => r.holofoil_market.isSome)

/-- The column tcgplayer.prices.normal.market exists in the flattened
frame of a document exactly when some record of the document carries the
path. -/
def normalColPresent (doc : List RawCard) : Bool :=
  doc.any (fun r => r.normal_market.isSome)

/-- Cell of the series s1 = df.get("tcgplayer.prices.holofoil.market",
pd.Series(0.0, index=df.index)): the column value (NaN for an absent or
null path) when the column exists, else the 0.0 default series. -/
def holoCell (doc : List RawCard) (r : RawCard) : Option ℚ :=
  if holoColPresent doc then r.holofoil_market.join else some 0

/-- Cell of the series s2 = df.get("tcgplayer.prices.normal.market",
pd.Series(0.0, index=df.index)). -/
def normalCell (doc : List RawCard) (r : RawCard) : Option ℚ :=
  if normalColPresent doc then r.normal_market.join else some 0

/-- df["card_market_value"] = s1.fillna(s2).fillna(0.0), per record. -/
def card_market_value_of (doc : List RawCard) (r : RawCard) : ℚ :=
  ((holoCell doc r).orElse (fun _ => normalCell doc r)).getD 0

/-- A row of the flattened, renamed, column-synthesized lookup frame
(the required_cols selection of _load_lookup_data). -/
structure LookupRow where
  card_id : Option String
  card_name : Option String
  card_number : Option String
  set_id : Option String
  set_name : Option String
  card_market_value : ℚ
deriving DecidableEq

/-- Flatten one valid document: rename id/name/number/set.id/set.name to
the canonical column names and compute card_market_value.  A column
missing from the document is pd.NA everywhere, which coincides with the
record-level none. -/
def normalizeDoc (recs : List RawCard) : List LookupRow :=
  recs.map (fun r =>
    { card_id := r.id
      card_name := r.name
      card_number := r.number
      set_id := r.set_id
      set_name := r.set_name
      card_market_value := card_market_value_of recs r })

/-- One catalog source document as _load_lookup_data classifies it:
unreadable (open/read raises), blank (empty after strip), malformed
(json.loads raises), notList (parsed but the records payload is not a
list), or a parsed list of records (either top-level or under the data
key). -/
inductive CatalogDoc where
  | unreadable : CatalogDoc
  | blank : CatalogDoc
  | malformed : CatalogDoc
  | notList : CatalogDoc
  | docList : List RawCard → CatalogDoc
deriving DecidableEq

/-- The flat frame a document contributes to all_lookup_df: none when the
document is skipped (unreadable, blank, malformed, not a list, or an
empty list). -/
def docContribution : CatalogDoc → Option (List LookupRow)
  | CatalogDoc.docList recs => if recs.isEmpty then none else some (normalizeDoc recs)
  | _ => none

/-- A document survives the per-file skip checks of _load_lookup_data. -/
def validCatalogDoc : CatalogDoc → Bool
  | CatalogDoc.docList recs => !recs.isEmpty
  | _ => false

/-- Insert a row into a list ordered by card_market_value descending,
before the first row of smaller-or-equal value.  Placing the new row in
front of equal-valued rows fixes one tie order; the source's
sort_values under its default kind=quicksort does not promise any
particular order among equal values. -/
def insertDesc (r : LookupRow) : List LookupRow → List LookupRow
  | [] => [r]
  | s :: rest =>
      if s.card_market_value ≤ r.card_market_value then r :: s :: rest
      else s :: insertDesc r rest

/-- lookup_df.sort_values(by="card_market_value", ascending=False)
returns a permutation of the rows ordered by market value descending;
its default kind=quicksort is documented as not stable, so the relative
order of equal values is left unspecified.  sortDesc fixes one
admissible outcome (sortDesc_perm and sortedDesc_sortDesc certify
admissibility); any fact that depends on the order it gives equal
values is a fact about this choice, not about the program. -/
def sortDesc : List LookupRow → List LookupRow
  | [] => []
  | x :: xs => insertDesc x (sortDesc xs)

/-- lookup_df.drop_duplicates(subset=["card_id"], keep="first"): keep the
first row for each distinct card_id (pd.NA keys compare equal to each
other). -/
def dropDupFirst : List LookupRow → List LookupRow
  | [] => []
  | r :: rest =>
      r :: dropDupFirst (rest.filter (fun s => decide (s.card_id ≠ r.card_id)))
termination_by l => l.length
decreasing_by
  simp only [List.length_cons]
  exact Nat.lt_succ_of_le (List.length_filter_le _ _)

/-- Lines 71 and 72 of update_portfolio.py: sort by market value
descending, then keep the first record per card_id. -/
def dedupLookup (l : List LookupRow) : List LookupRow :=
  dropDupFirst (sortDesc l)

/-- _load_lookup_data over the listed catalog documents: concatenate the
contributions of the valid documents, then sort and deduplicate; an
empty contribution list yields the empty column-complete frame. -/
def load_lookup_data (docs : List CatalogDoc) : List LookupRow :=
  let contribs := docs.filterMap docContribution
  if contribs.isEmpty then [] else dedupLookup contribs.flatten

/-- One row of an inventory CSV file.  Every cell is Option String: none
models a missing value (NaN); pandas string coercion is applied where
the code calls astype(str). -/
structure InvRow where
  card_name : Option String
  set_name : Option String
  set_id : Option String
  card_number : Option String
  binder_name : Option String
  page_number : Option String
  slot_number : Option String
deriving DecidableEq

/-- Which of the seven columns of interest a frame carries.  A column a
frame does not carry is simply absent, which matters for pd.concat
(union of columns, NaN fill) and for KeyError on column access. -/
structure InvCols where
  card_name : Bool
  set_name : Bool
  set_id : Bool
  card_number : Bool
  binder_name : Bool
  page_number : Bool
  slot_number : Bool
deriving DecidableEq

/-- One inventory CSV file: its columns and its data rows. -/
structure InvFrame where
  cols : InvCols
  rows : List InvRow
deriving DecidableEq

/-- Cells of columns a frame does not carry are not data; after pd.concat
they are NaN.  maskRow forces them to none. -/
def maskRow (c : InvCols) (r : InvRow) : InvRow :=
  { card_name := if c.card_name then r.card_name else none
    set_name := if c.set_name then r.set_name else none
    set_id := if c.set_id then r.set_id else none
    card_number := if c.card_number then r.card_number else none
    binder_name := if c.binder_name then r.binder_name else none
    page_number := if c.page_number then r.page_number else none
    slot_number := if c.slot_number then r.slot_number else none }

/-- Column set of pd.concat(inventory_data): the union of the source
frames' columns. -/
def unionCols (srcs : List InvFrame) : InvCols :=
  { card_name := srcs.any (fun f => f.cols.card_name)
    set_name := srcs.any (fun f => f.cols.set_name)
    set_id := srcs.any (fun f => f.cols.set_id)
    card_number := srcs.any (fun f => f.cols.card_number)
    binder_name := srcs.any (fun f => f.cols.binder_name)
    page_number := srcs.any (fun f => f.cols.page_number)
    slot_number := srcs.any (fun f => f.cols.slot_number) }

/-- Rows of pd.concat(inventory_data, ignore_index=True): all rows in
source order, with cells of columns a source does not carry NaN-filled. -/
def concatRows (srcs : List InvFrame) : List InvRow :=
  (srcs.map (fun f => f.rows.map (maskRow f.cols))).flatten

/-- astype(str) on a cell: NaN prints as the string nan. -/
def pyStr : Option String → String
  | some s => s
  | none => "nan"

/-- The loaded inventory frame: its column set, whether the derived
card_id column exists, and its rows paired with their card_id cell. -/
structure InvDF where
  cols : InvCols
  hasCardId : Bool
  rows : List (InvRow × Option String)
deriving DecidableEq

/-- pd.DataFrame(): the frame the top-level loader returns when no CSV
source is found — no columns, no rows, no card_id. -/
def emptyInvDF : InvDF :=
  { cols := ⟨false, false, false, false, false, false, false⟩
    hasCardId := false
    rows := [] }

/-- _load_inventory_data of the top-level update_portfolio.py:
concatenate the CSV frames, then derive
card_id = set_id.astype(str) + "-" + card_number.astype(str);
accessing a column absent from the concatenated frame raises KeyError,
modelled as Except.error. -/
def load_inventory_data (srcs : List InvFrame) : Except String InvDF :=
  if srcs.isEmpty then Except.ok emptyInvDF
  else
    let cols := unionCols srcs
    if cols.set_id = false then Except.error "KeyError: set_id"
    else if cols.card_number = false then Except.error "KeyError: card_number"
    else Except.ok
      { cols := cols
        hasCardId := true
        rows := (concatRows srcs).map
          (fun r => (r, some (pyStr r.set_id ++ "-" ++ pyStr r.card_number))) }

/-- The empty-but-typed frame the nested pokemon_lab variant loader
returns when no CSV source is found: fixed columns card_name, set_id,
card_number, binder_name, page_number, slot_number and card_id (note:
no set_name column). -/
def emptyInvDF_v2 : InvDF :=
  { cols := { card_name := true, set_name := false, set_id := true,
              card_number := true, binder_name := true,
              page_number := true, slot_number := true }
    hasCardId := true
    rows := [] }

/-- _load_inventory_data of the nested
pokemon_lab/pokemon_lab/update_portfolio.py variant: identical to the
top-level loader except for the zero-source branch. -/
def load_inventory_data_v2 (srcs : List InvFrame) : Except String InvDF :=
  if srcs.isEmpty then Except.ok emptyInvDF_v2
  else
    let cols := unionCols srcs
    if cols.set_id = false then Except.error "KeyError: set_id"
    else if cols.card_number = false then Except.error "KeyError: card_number"
    else Except.ok
      { cols := cols
        hasCardId := true
        rows := (concatRows srcs).map
          (fun r => (r, some (pyStr r.set_id ++ "-" ++ pyStr r.card_number))) }

/-- A cell of the written portfolio CSV. -/
inductive Cell where
  | str : String → Cell
  | num : ℚ → Cell
  | na : Cell
deriving DecidableEq

/-- The written artifact: header row and data rows. -/
structure Csv where
  header : List String
  rows : List (List Cell)
deriving DecidableEq

/-- Observable outcome of one update_portfolio run: the artifact written
(none when nothing was written), whether the empty-inventory warning
went to stderr, and the uncaught exception if the run aborted. -/
structure RunResult where
  written : Option Csv
  warned : Bool
  err : Option String
deriving DecidableEq

/-- empty_cols of update_portfolio: header of the artifact written on the
empty-inventory path. -/
def empty_cols : List String :=
  ["index", "card_name", "set_name", "card_market_value",
   "binder_name", "page_number", "slot_number"]

/-- final_cols of the top-level update_portfolio: the projection applied
to the merged frame before writing. -/
def final_cols : List String :=
  ["index", "binder_name", "page_number", "slot_number",
   "card_name", "card_number", "set_id", "set_name", "card_market_value"]

/-- The column order stated by the specification (location key, then the
catalog-derived display fields, then the physical-location fields). -/
def specifiedFinalCols : List String :=
  ["index", "card_name", "set_name", "card_market_value",
   "binder_name", "page_number", "slot_number"]

/-- to_csv rendering of an inventory-side cell. -/
def optCell : Option String → Cell
  | some s => Cell.str s
  | none => Cell.na

/-- left_cols = every inventory column except card_name and set_name:
the left side of the merge drops the advisory name columns. -/
def leftColsOf (c : InvCols) : InvCols :=
  { c with card_name := false, set_name := false }

/-- One output row of the merged frame, projected to final_cols.
lookup.find? is the left-join probe (card_id is unique on the lookup
side after dedup).  hasNameInv and hasSetNameInv record whether the
merged frame has a card_name_inv or set_name_inv column: the suffixes
("_inv", "") apply only to columns present on both sides, and the left
side dropped card_name and set_name, so both flags are false in every
call; the combine_first fallback then reads a pd.NA series. -/
def mergedRow (lookup : List LookupRow) (hasNameInv hasSetNameInv : Bool)
    (rc : InvRow × Option String) : List Cell :=
  let r := rc.1
  let m := lookup.find? (fun l => l.card_id == rc.2)
  let nameCell : String :=
    ((match m with | some l => l.card_name | none => none).orElse
      (fun _ => if hasNameInv then r.card_name else none)).getD "NOT_FOUND"
  let setNameCell : String :=
    ((match m with | some l => l.set_name | none => none).orElse
      (fun _ => if hasSetNameInv then r.set_name else none)).getD "NOT_FOUND"
  let valueCell : ℚ := match m with | some l => l.card_market_value | none => 0
  let idx := pyStr r.binder_name ++ "-" ++ pyStr r.page_number ++ "-"
      ++ pyStr r.slot_number
  [Cell.str idx, optCell r.binder_name, optCell r.page_number,
   optCell r.slot_number, Cell.str nameCell, optCell r.card_number,
   optCell r.set_id, Cell.str setNameCell, Cell.num valueCell]

/-- update_portfolio of the top-level update_portfolio.py.  The lookup
load never raises; the inventory load raises KeyError when set_id or
card_number is absent from the concatenated frame; an empty inventory
writes the empty artifact with a stderr warning; otherwise the left
join runs, the name and value defaults are filled, the location index
is derived (KeyError when binder_name, page_number or slot_number is
absent from the concatenated frame), and the final_cols projection is
written. -/
def update_portfolio (invSrcs : List InvFrame) (docs : List CatalogDoc) :
    RunResult :=
  let lookup := load_lookup_data docs
  match load_inventory_data invSrcs with
  | Except.error e => { written := none, warned := false, err := some e }
  | Except.ok inv =>
    if inv.rows.isEmpty then
      { written := some { header := empty_cols, rows := [] }
        warned := true
        err := none }
    else
      let lcols := leftColsOf inv.cols
      let hasNameInv := lcols.card_name
      let hasSetNameInv := lcols.set_name
      if inv.cols.binder_name = false then
        { written := none, warned := false, err := some "KeyError: binder_name" }
      else if inv.cols.page_number = false then
        { written := none, warned := false, err := some "KeyError: page_number" }
      else if inv.cols.slot_number = false then
        { written := none, warned := false, err := some "KeyError: slot_number" }
      else
        { written := some
            { header := final_cols
              rows := inv.rows.map (mergedRow lookup hasNameInv hasSetNameInv) }
          warned := false
          err := none }

/-! Concrete inputs used by witnesses and counterexamples. -/

/-- All seven columns present. -/
def allInvCols : InvCols := ⟨true, true, true, true, true, true, true⟩

/-- A complete inventory row that also carries the advisory card_name and
set_name fields. -/
def exRow : InvRow :=
  { card_name := some "Pikachu"
    set_name := some "Base Set"
    set_id := some "base1"
    card_number := some "4"
    binder_name := some "B1"
    page_number := some "1"
    slot_number := some "1" }

/-- One inventory CSV carrying all columns and the single row exRow. -/
def exFullSrc : InvFrame := { cols := allInvCols, rows := [exRow] }

/-- One inventory CSV lacking the required set_id column. -/
def exNoSetIdSrc : InvFrame :=
  { cols := { allInvCols with set_id := false }, rows := [exRow] }

/-- What load_inventory_data returns for the single source exFullSrc. -/
def exLoadedInv : InvDF :=
  { cols := allInvCols
    hasCardId := true
    rows := [(exRow, some "base1-4")] }

/-- A raw catalog record that carries no holofoil price path and a
non-null normal price of 5. -/
def cexNormalOnlyRec : RawCard :=
  { id := some "xy7-54"
    name := some "Example"
    number := none
    set_id := none
    set_name := none
    holofoil_market := none
    normal_market := some (some 5) }

/-- A one-record document whose flattened frame has a normal price
column but no holofoil price column. -/
def cexNormalOnlyDoc : List RawCard := [cexNormalOnlyRec]

/-- A lookup record with identifier A, market value 5 and name first. -/
def tieRecA : LookupRow :=
  { card_id := some "A"
    card_name := some "first"
    card_number := none
    set_id := none
    set_name := none
    card_market_value := 5 }

/-- A lookup record with identifier A, market value 5 and name second:
equal key and value to tieRecA, different non-value fields. -/
def tieRecB : LookupRow :=
  { card_id := some "A"
    card_name := some "second"
    card_number := none
    set_id := none
    set_name := none
    card_market_value := 5 }

/-! Helper lemmas about the descending sort and the keep-first
deduplication. -/

/-- Sorted by market value descending. -/
def SortedDesc (l : List LookupRow) : Prop :=
  l.Pairwise (fun a b => b.card_market_value ≤ a.card_market_value)

lemma mem_insertDesc {r a : LookupRow} {l : List LookupRow} :
    a ∈ insertDesc r l ↔ a = r ∨ a ∈ l := by
  induction l with
  | nil => simp [insertDesc]
  | cons s rest ih =>
      by_cases h : s.card_market_value ≤ r.card_market_value
      · simp only [insertDesc, if_pos h, List.mem_cons]
      · simp only [insertDesc, if_neg h, List.mem_cons, ih]
        tauto

lemma sortedDesc_insertDesc {l : List LookupRow} (h : SortedDesc l)
    (r : LookupRow) : SortedDesc (insertDesc r l) := by
  induction l with
  | nil => simp [insertDesc, SortedDesc]
  | cons s rest ih =>
      have hd := (List.pairwise_cons.mp h).1
      have ht := (List.pairwise_cons.mp h).2
      by_cases hc : s.card_market_value ≤ r.card_market_value
      · simp only [insertDesc, if_pos hc, SortedDesc, List.pairwise_cons]
        refine ⟨?_, ?_, ht⟩
        · intro b hb
          rcases List.mem_cons.mp hb with hb | hb
          · exact hb ▸ hc
          · exact le_trans (hd b hb) hc
        · exact hd
      · simp only [insertDesc, if_neg hc, SortedDesc, List.pairwise_cons]
        refine ⟨?_, ih ht⟩
        intro b hb
        rcases mem_insertDesc.mp hb with hb | hb
        · exact hb ▸ le_of_lt (not_le.mp hc)
        · exact hd b hb

lemma sortedDesc_sortDesc (l : List LookupRow) : SortedDesc (sortDesc l) := by
  induction l with
  | nil => simp [sortDesc, SortedDesc]
  | cons x xs ih => exact sortedDesc_insertDesc ih x

lemma mem_dropDupFirst {a : LookupRow} {l : List LookupRow}
    (h : a ∈ dropDupFirst l) : a ∈ l := by
  induction l using dropDupFirst.induct with
  | case1 => simp [dropDupFirst] at h
  | case2 r rest ih =>
      rw [dropDupFirst] at h
      rcases List.mem_cons.mp h with h1 | h1
      · exact h1 ▸ List.mem_cons_self r rest
      · exact List.mem_cons_of_mem r (List.mem_of_mem_filter (ih h1))

lemma pairwise_dropDupFirst (l : List LookupRow) :
    (dropDupFirst l).Pairwise (fun a b => a.card_id ≠ b.card_id) := by
  induction l using dropDupFirst.induct with
  | case1 => simp [dropDupFirst]
  | case2 r rest ih =>
      rw [dropDupFirst]
      refine List.pairwise_cons.mpr ⟨?_, ih⟩
      intro b hb
      have hbf := mem_dropDupFirst hb
      have := List.of_mem_filter hbf
      simp only [decide_eq_true_eq] at this
      exact Ne.symm this

lemma insertDesc_perm (r : LookupRow) (l : List LookupRow) :
    (insertDesc r l).Perm (r :: l) := by
  induction l with
  | nil => exact List.Perm.refl _
  | cons s rest ih =>
      by_cases hc : s.card_market_value ≤ r.card_market_value
      · rw [insertDesc, if_pos hc]
      · rw [insertDesc, if_neg hc]
        exact (List.Perm.cons s ih).trans (List.Perm.swap r s rest)

/-- sortDesc returns a permutation of its input: together with
sortedDesc_sortDesc this certifies it as one admissible output of
sort_values, which guarantees only a descending order by the key. -/
lemma sortDesc_perm (l : List LookupRow) : (sortDesc l).Perm l := by
  induction l with
  | nil => exact List.Perm.refl _
  | cons x xs ih =>
      exact (insertDesc_perm x (sortDesc xs)).trans (List.Perm.cons x ih)

/-- For any descending-ordered state of the lookup frame — that is, for
any tie order the unstable sort may have produced — every record
drop_duplicates keeps carries the maximum market value among the rows
sharing its card_id.  This is the half of the dedup contract the
program does guarantee. -/
lemma dropDupFirst_keeps_group_max :
    ∀ l : List LookupRow, SortedDesc l →
      ∀ r ∈ dropDupFirst l, ∀ s ∈ l, s.card_id = r.card_id →
        s.card_market_value ≤ r.card_market_value := by
  intro l
  induction l using dropDupFirst.induct with
  | case1 =>
      intro _ r hr
      rw [dropDupFirst] at hr
      exact absurd hr (List.not_mem_nil r)
  | case2 r0 rest ih =>
      intro h r hr s hs hid
      have hd := (List.pairwise_cons.mp h).1
      have ht := (List.pairwise_cons.mp h).2
      rw [dropDupFirst] at hr
      rcases List.mem_cons.mp hr with hr1 | hr1
      · subst hr1
        rcases List.mem_cons.mp hs with hs1 | hs1
        · exact hs1 ▸ le_refl _
        · exact hd s hs1
      · have hsort2 : SortedDesc
            (rest.filter (fun t => decide (t.card_id ≠ r0.card_id))) :=
          List.Pairwise.sublist (List.filter_sublist rest) ht
        have hrf : r ∈ rest.filter (fun t => decide (t.card_id ≠ r0.card_id)) :=
          mem_dropDupFirst hr1
        have hrne : r.card_id ≠ r0.card_id := by
          have := List.of_mem_filter hrf
          simpa using this
        rcases List.mem_cons.mp hs with hs1 | hs1
        · exact absurd (hs1 ▸ hid : r0.card_id = r.card_id) (Ne.symm hrne)
        · have hsf : s ∈ rest.filter (fun t => decide (t.card_id ≠ r0.card_id)) := by
            refine List.mem_filter.mpr ⟨hs1, ?_⟩
            simp only [decide_eq_true_eq]
            rw [hid]
            exact hrne
          exact ih hsort2 r hr1 s hsf hid

/-! Claim theorems. -/

/-- C1: for every non-empty loaded inventory whose concatenated frame
carries the location columns (set_id and card_number are already implied
by a successful load), and for every catalog input (hence any match
rate), update_portfolio writes an artifact with exactly one data row per
inventory row: the left join on card_id against the deduplicated lookup
neither drops nor duplicates inventory rows. -/
theorem claim_row_count_preserved (srcs : List InvFrame)
    (docs : List CatalogDoc) (inv : InvDF)
    (hload : load_inventory_data srcs = Except.ok inv)
    (hne : inv.rows ≠ [])
    (hb : inv.cols.binder_name = true)
    (hp : inv.cols.page_number = true)
    (hs : inv.cols.slot_number = true) :
    ((update_portfolio srcs docs).written.map (fun c => c.rows.length)) =
      some inv.rows.length := by
  rw [update_portfolio, hload]
  simp [List.isEmpty_iff, hne, hb, hp, hs]

/-- Witness for C1: a one-row inventory with all columns and an empty
catalog produces exactly one output row. -/
theorem claim_row_count_preserved_witness :
    ((update_portfolio [exFullSrc] []).written.map
      (fun c => c.rows.length)) = some 1 := by
  have h := claim_row_count_preserved [exFullSrc] [] exLoadedInv rfl
    (by decide) rfl rfl rfl
  exact h

/-- C2: the first-seen tie-break is not a property of the program.
sort_values under its default kind=quicksort promises only a descending
order by card_market_value; for two records sharing identifier A with
equal value 5 and different name fields, both relative orders are
descending-sorted permutations of the input, yet drop_duplicates
keep-first retains the record named first under one order and the
record named second under the other.  So which non-value fields survive
a tie is left to the unspecified tie order of the unstable sort, while
the claim and the specification require the stable, first-encountered
outcome.  The maximum-value half of the claim does hold for every
admissible order: see dropDupFirst_keeps_group_max. -/
theorem claim_dedup_tie_break_unspecified :
    tieRecA.card_id = tieRecB.card_id ∧
    tieRecA.card_market_value = tieRecB.card_market_value ∧
    tieRecA.card_name ≠ tieRecB.card_name ∧
    SortedDesc [tieRecA, tieRecB] ∧
    SortedDesc [tieRecB, tieRecA] ∧
    List.Perm [tieRecB, tieRecA] [tieRecA, tieRecB] ∧
    dropDupFirst [tieRecA, tieRecB] = [tieRecA] ∧
    dropDupFirst [tieRecB, tieRecA] = [tieRecB] := by
  refine ⟨rfl, rfl, by decide, ?_, ?_, List.Perm.swap tieRecA tieRecB [], ?_, ?_⟩
  · simp [SortedDesc, List.pairwise_cons, tieRecA, tieRecB]
  · simp [SortedDesc, List.pairwise_cons, tieRecA, tieRecB]
  · rw [dropDupFirst]
    simp [dropDupFirst, tieRecA, tieRecB, List.filter_cons]
  · rw [dropDupFirst]
    simp [dropDupFirst, tieRecA, tieRecB, List.filter_cons]

/-- C3: the advisory fallback never fires.  An inventory row carrying the
advisory name Pikachu and set name Base Set, with an empty catalog (so
the derived card_id base1-4 is unmatched), is written with NOT_FOUND in
both display columns and market value 0: the merge drops the inventory
card_name and set_name columns beforehand (left_cols), so the
card_name_inv and set_name_inv series read by combine_first never
exist. -/
theorem claim_advisory_name_fallback_dead :
    exRow.card_name = some "Pikachu" ∧
    exRow.set_name = some "Base Set" ∧
    (update_portfolio [exFullSrc] []).written =
      some { header := final_cols
             rows := [[Cell.str "B1-1-1", Cell.str "B1", Cell.str "1",
                       Cell.str "1", Cell.str "NOT_FOUND", Cell.str "4",
                       Cell.str "base1", Cell.str "NOT_FOUND",
                       Cell.num 0]] } :=
  ⟨rfl, rfl, rfl⟩

/-- C4 counterexample: in a document whose flattened frame has no
holofoil price column, a record with a non-null normal price of 5 gets
market value 0, not 5: df.get substitutes a 0.0 series, not a null
series, so fillna never consults the normal price. -/
theorem claim_market_value_chain_cex :
    cexNormalOnlyRec.holofoil_market = none ∧
    cexNormalOnlyRec.normal_market = some (some 5) ∧
    holoColPresent cexNormalOnlyDoc = false ∧
    card_market_value_of cexNormalOnlyDoc cexNormalOnlyRec = 0 ∧
    (0 : ℚ) ≠ 5 :=
  ⟨rfl, rfl, rfl, rfl, by norm_num⟩

/-- C4 amended: when the holofoil price column is present in the
flattened document, the market value follows the chain: the record's
holofoil price if non-null, else the record's normal price if that
column is present and the value non-null, else 0.0; when the holofoil
column is entirely absent, the market value is 0.0 for every record of
the document, even when normal prices are present. -/
theorem claim_market_value_chain_amended (doc : List RawCard)
    (r : RawCard) :
    card_market_value_of doc r =
      if holoColPresent doc then
        match r.holofoil_market.join with
        | some v => v
        | none =>
            match (if normalColPresent doc then r.normal_market.join
                   else none) with
            | some v => v
            | none => 0
      else 0 := by
  rw [card_market_value_of, holoCell, normalCell]
  cases h1 : holoColPresent doc with
  | false => simp
  | true =>
      simp only [if_pos]
      cases r.holofoil_market.join with
      | some v => rfl
      | none =>
          cases h2 : normalColPresent doc with
          | false => simp
          | true =>
              simp only [if_pos]
              cases r.normal_market.join <;> rfl

/-- C5: for every run, no two records of the deduplicated lookup frame
share a card_id (pd.NA keys included). -/
theorem claim_dedup_ids_unique (docs : List CatalogDoc) :
    (load_lookup_data docs).Pairwise (fun a b => a.card_id ≠ b.card_id) := by
  rw [load_lookup_data]
  split
  · simp
  · exact pairwise_dropDupFirst _

/-- C6: when the loaded inventory has zero rows, update_portfolio writes
the artifact with the empty_cols header and no data rows, emits the
stderr warning, raises nothing, and never reaches the join; empty_cols
is exactly the column order the specification states. -/
theorem claim_empty_inventory_artifact (srcs : List InvFrame)
    (docs : List CatalogDoc) (inv : InvDF)
    (hload : load_inventory_data srcs = Except.ok inv)
    (hrows : inv.rows = []) :
    update_portfolio srcs docs =
      { written := some { header := empty_cols, rows := [] }
        warned := true
        err := none } ∧ empty_cols = specifiedFinalCols := by
  constructor
  · rw [update_portfolio, hload]
    simp [hrows]
  · rfl

/-- Witness for C6: zero inventory sources and zero catalog documents. -/
theorem claim_empty_inventory_artifact_witness :
    update_portfolio [] [] =
      { written := some { header := empty_cols, rows := [] }
        warned := true
        err := none } ∧ empty_cols = specifiedFinalCols :=
  claim_empty_inventory_artifact [] [] emptyInvDF rfl rfl

/-- C7 counterexample: one source lacking set_id next to one complete
source does not abort: pd.concat NaN-fills the column, the run completes
without error and writes both rows. -/
theorem claim_missing_column_fatal_cex :
    exNoSetIdSrc.cols.set_id = false ∧
    (update_portfolio [exNoSetIdSrc, exFullSrc] []).err = none ∧
    ((update_portfolio [exNoSetIdSrc, exFullSrc] []).written.map
      (fun c => c.rows.length)) = some 2 :=
  ⟨rfl, rfl, rfl⟩

/-- C7 amended: when a required column is absent from the union of all
inventory sources' columns and the concatenated inventory has at least
one row, the run aborts with an uncaught KeyError and no artifact is
written. -/
theorem claim_missing_column_aborts_amended (srcs : List InvFrame)
    (docs : List CatalogDoc) (hrows : concatRows srcs ≠ [])
    (hmiss : (unionCols srcs).set_id = false ∨
      (unionCols srcs).card_number = false ∨
      (unionCols srcs).binder_name = false ∨
      (unionCols srcs).page_number = false ∨
      (unionCols srcs).slot_number = false) :
    (update_portfolio srcs docs).written = none ∧
      (update_portfolio srcs docs).err.isSome = true := by
  have hsrcs : srcs ≠ [] := by
    intro h
    exact hrows (by simp [h, concatRows])
  have hsrcs2 : srcs.isEmpty = false := by
    simpa [List.isEmpty_iff] using hsrcs
  rw [update_portfolio, load_inventory_data]
  by_cases h1 : (unionCols srcs).set_id = false
  · simp [hsrcs2, h1]
  · by_cases h2 : (unionCols srcs).card_number = false
    · simp [hsrcs2, h1, h2]
    · have hne : ((concatRows srcs).map
          (fun r => (r, some (pyStr r.set_id ++ "-" ++ pyStr r.card_number)))).isEmpty
          = false := by
        simp [List.isEmpty_iff, hrows]
      rcases hmiss with hm | hm | hm | hm | hm
      · exact absurd hm h1
      · exact absurd hm h2
      · simp [hsrcs2, h1, h2, hne, hm]
      · by_cases hb : (unionCols srcs).binder_name = false
        · simp [hsrcs2, h1, h2, hne, hb]
        · simp [hsrcs2, h1, h2, hne, hb, hm]
      · by_cases hb : (unionCols srcs).binder_name = false
        · simp [hsrcs2, h1, h2, hne, hb]
        · by_cases hpg : (unionCols srcs).page_number = false
          · simp [hsrcs2, h1, h2, hne, hb, hpg]
          · simp [hsrcs2, h1, h2, hne, hb, hpg, hm]

/-- Witness for C7 amended: a single one-row source lacking set_id
aborts with no artifact written. -/
theorem claim_missing_column_aborts_amended_witness :
    (update_portfolio [exNoSetIdSrc] []).written = none ∧
      (update_portfolio [exNoSetIdSrc] []).err.isSome = true :=
  claim_missing_column_aborts_amended [exNoSetIdSrc] [] (by decide)
    (Or.inl rfl)

/-- C8: documents that are unreadable, blank, malformed, not a list, or
an empty list contribute nothing: the lookup loader computes exactly the
same frame from the valid documents alone, and no such document makes
the run fail (the loader is total). -/
theorem claim_invalid_docs_skipped (docs : List CatalogDoc) :
    load_lookup_data docs = load_lookup_data (docs.filter validCatalogDoc) := by
  have h : docs.filterMap docContribution =
      (docs.filter validCatalogDoc).filterMap docContribution := by
    induction docs with
    | nil => rfl
    | cons d ds ih =>
        cases d with
        | docList recs =>
            by_cases h0 : recs.isEmpty
            · simp [List.filter_cons, validCatalogDoc, h0,
                List.filterMap_cons, docContribution, ih]
            · simp [List.filter_cons, validCatalogDoc, h0,
                List.filterMap_cons, docContribution, ih]
        | unreadable =>
            simp [List.filter_cons, validCatalogDoc, List.filterMap_cons,
              docContribution, ih]
        | blank =>
            simp [List.filter_cons, validCatalogDoc, List.filterMap_cons,
              docContribution, ih]
        | malformed =>
            simp [List.filter_cons, validCatalogDoc, List.filterMap_cons,
              docContribution, ih]
        | notList =>
            simp [List.filter_cons, validCatalogDoc, List.filterMap_cons,
              docContribution, ih]
  rw [load_lookup_data, load_lookup_data, ← h]

/-- C9 counterexample: the non-empty artifact header is final_cols —
location key, then the physical-location columns, then card_name,
card_number, set_id, set_name and the market value — which is not the
specified order (location key, catalog display fields, location
fields). -/
theorem claim_column_order_cex :
    ((update_portfolio [exFullSrc] []).written.map (fun c => c.header)) =
      some final_cols ∧ final_cols ≠ specifiedFinalCols :=
  ⟨rfl, by decide⟩

/-- C9 amended: every non-empty artifact is projected to exactly the
final_cols order of the source (index, binder_name, page_number,
slot_number, card_name, card_number, set_id, set_name,
card_market_value), and the write replaces the destination in full. -/
theorem claim_column_order_amended (srcs : List InvFrame)
    (docs : List CatalogDoc) (inv : InvDF)
    (hload : load_inventory_data srcs = Except.ok inv)
    (hne : inv.rows ≠ [])
    (hb : inv.cols.binder_name = true)
    (hp : inv.cols.page_number = true)
    (hs : inv.cols.slot_number = true) :
    ((update_portfolio srcs docs).written.map (fun c => c.header)) =
      some final_cols := by
  rw [update_portfolio, hload]
  simp [List.isEmpty_iff, hne, hb, hp, hs]

/-- Witness for C9 amended: concrete one-row run writes the final_cols
header. -/
theorem claim_column_order_amended_witness :
    ((update_portfolio [exFullSrc] []).written.map (fun c => c.header)) =
      some final_cols :=
  claim_column_order_amended [exFullSrc] [] exLoadedInv rfl (by decide)
    rfl rfl rfl

/-- C10 counterexample: with zero inventory sources the top-level loader
returns pd.DataFrame(), a frame with no columns at all: the derived
card_id column is absent and so is every required column, refuting
column-completeness. -/
theorem claim_empty_loader_cex :
    load_inventory_data [] = Except.ok emptyInvDF ∧
    emptyInvDF.hasCardId = false ∧
    emptyInvDF.cols.set_id = false ∧
    emptyInvDF.cols.card_number = false ∧
    emptyInvDF.cols.binder_name = false :=
  ⟨rfl, rfl, rfl, rfl, rfl⟩

/-- C10 amended: with zero sources the top-level loader returns a frame
with zero rows and no columns, while the nested variant loader returns a
zero-row frame carrying card_name, set_id, card_number, binder_name,
page_number, slot_number and the derived card_id, but no set_name
column. -/
theorem claim_empty_loader_amended :
    (load_inventory_data [] = Except.ok emptyInvDF ∧
      emptyInvDF.rows = [] ∧
      emptyInvDF.cols = ⟨false, false, false, false, false, false, false⟩ ∧
      emptyInvDF.hasCardId = false) ∧
    (load_inventory_data_v2 [] = Except.ok emptyInvDF_v2 ∧
      emptyInvDF_v2.rows = [] ∧
      emptyInvDF_v2.hasCardId = true ∧
      emptyInvDF_v2.cols =
        ⟨true, false, true, true, true, true, true⟩) :=
  ⟨⟨rfl, rfl, rfl, rfl⟩, ⟨rfl, rfl, rfl, rfl⟩⟩
